import Mathlib

/-!
# Verification of the device status state machine, site aggregation and
# incident-escalation pipeline

Shallow embedding of the core logic of the repository's lambda functions:

* `device_status_polling.py` — per-device status state machine
  (`process_device_status`, `update_device_status_in_db`);
* `update_status.py` — site-level aggregation
  (`get_inverter_statuses`, `determine_system_status`, `update_system_status`);
* `notify_user.py` — incident creation
  (`process_status_change_notification`, `create_incident_record`,
  `create_technician_schedule`);
* `notify_technician.py` — incident reconciliation at timer firing
  (`process_incident_notification`);
* `red_code_reminder.py` — daily reminder sweeper
  (`is_red_status_old_enough`, `process_red_inverter_reminder`).

Statuses are kept as the strings the code stores (`"green"`, `"red"`,
`"Moon"` for devices; `"green"`, `"red"`, `"moon"` for sites); the spec's
healthy/fault/dormant vocabulary maps onto these display names.  Power
readings are modelled as rationals, timestamps as integers (epoch seconds)
or opaque strings where only identity matters.
-/

/-- First `stateCode` in provider-return order whose severity color is
`"red"` in the fault-code lookup.  Mirrors the loop over
`messages_response['messages']` in `process_device_status`
(`device_status_polling.py`): `if color_map.get(error_code) == 'red':
red_error_code = error_code; break`. -/
def findRedErrorCode (colorMap : String → Option String) : List String → Option String
  | [] => none
  | c :: rest =>
    if colorMap c = some "red" then some c else findRedErrorCode colorMap rest

/-- The status state machine of `process_device_status`
(`device_status_polling.py`, the `is_moon_time_period` branch and the
daylight branch).  Inputs: stored status and reason, instantaneous power,
whether the night ("moon") window applies, the fault-code color lookup and
the fault-event codes returned by the provider since the last update.
Output: (new status, new reason).  The fall-through case (no branch of the
`if`/`elif` chain matches) leaves both unchanged, exactly as the Python
initialises `new_status = current_status; new_reason = current_reason`. -/
def deviceTransition (currentStatus currentReason : String) (power : ℚ)
    (isMoonTime : Bool) (colorMap : String → Option String)
    (messages : List String) : String × String :=
  if isMoonTime then
    if currentStatus = "red" ∧ power = 0 then ("red", currentReason)
    else if currentStatus = "red" ∧ 0 < power then ("green", "")
    else if currentStatus = "Moon" ∧ power = 0 then ("Moon", currentReason)
    else if currentStatus = "Moon" ∧ 0 < power then ("green", "")
    else if currentStatus = "green" ∧ 0 < power then ("green", currentReason)
    else if currentStatus = "green" ∧ power = 0 then
      ("Moon", "no production during moon time")
    else (currentStatus, currentReason)
  else
    if 0 < power then ("green", "")
    else
      match findRedErrorCode colorMap messages with
      | some c => ("red", "error code: " ++ c)
      | none => ("red", "no production")

/-- A concrete fault-code color lookup used by witnesses: code `"567"` is
red-severity, everything else unknown. -/
def colorMapEx : String → Option String :=
  fun c => if c = "567" then some "red" else none

/-- C1 (counterexample): at current status healthy/green, power zero, night
window, the engine's reason is the literal string
`"no production during moon time"`, not the claim's
`"no production during night window"`. -/
theorem C1_night_reason_counterexample :
    deviceTransition "green" "" 0 true colorMapEx [] =
      ("Moon", "no production during moon time") ∧
    "no production during moon time" ≠ "no production during night window" := by
  constructor
  · rfl
  · decide

/-- C1 (amended): in the night window the 6-row transition table is total and
deterministic over {green, red, Moon} × {zero, nonzero}: red+zero keeps red
with reason unchanged; red+nonzero and Moon+nonzero go green with reason
cleared; Moon+zero keeps Moon with reason unchanged; green+nonzero keeps
green with reason unchanged; green+zero goes Moon with reason
`"no production during moon time"` (the code's wording of the spec's
"no production during night window"). -/
theorem C1_night_table_amended (r : String) (cm : String → Option String)
    (ms : List String) (p : ℚ) (hp : 0 ≤ p) :
    deviceTransition "red" r 0 true cm ms = ("red", r) ∧
    (p ≠ 0 → deviceTransition "red" r p true cm ms = ("green", "")) ∧
    deviceTransition "Moon" r 0 true cm ms = ("Moon", r) ∧
    (p ≠ 0 → deviceTransition "Moon" r p true cm ms = ("green", "")) ∧
    (p ≠ 0 → deviceTransition "green" r p true cm ms = ("green", r)) ∧
    deviceTransition "green" r 0 true cm ms =
      ("Moon", "no production during moon time") := by
  have hpos : p ≠ 0 → 0 < p := fun h => lt_of_le_of_ne hp (Ne.symm h)
  refine ⟨?_, fun h => ?_, ?_, fun h => ?_, fun h => ?_, ?_⟩
  · simp [deviceTransition]
  · have h0 := hpos h
    simp [deviceTransition, h0, h0.ne', h]
  · simp [deviceTransition]
  · have h0 := hpos h
    simp [deviceTransition, h0, h0.ne', h]
  · have h0 := hpos h
    simp [deviceTransition, h0, h0.ne', h]
  · simp [deviceTransition]

/-- C1 witness: the amended night table applied at reason `"x"`, power 1 and
power 0. -/
theorem C1_night_table_witness :
    deviceTransition "green" "x" 1 true colorMapEx [] = ("green", "x") ∧
    deviceTransition "green" "x" 0 true colorMapEx [] =
      ("Moon", "no production during moon time") := by
  have h := C1_night_table_amended "x" colorMapEx [] 1 (by norm_num)
  exact ⟨h.2.2.2.2.1 (by norm_num), h.2.2.2.2.2⟩

/-- `findRedErrorCode` returns `none` when no code in the list maps to red. -/
theorem findRedErrorCode_eq_none (cm : String → Option String)
    (ms : List String) (h : ∀ c ∈ ms, cm c ≠ some "red") :
    findRedErrorCode cm ms = none := by
  induction ms with
  | nil => rfl
  | cons c rest ih =>
    have hc : cm c ≠ some "red" := h c (List.mem_cons_self c rest)
    simp only [findRedErrorCode, if_neg hc]
    exact ih fun c' hc' => h c' (List.mem_cons_of_mem c hc')

/-- `findRedErrorCode` returns the first red-severity code, in list order. -/
theorem findRedErrorCode_first (cm : String → Option String)
    (pre post : List String) (c : String)
    (hpre : ∀ c' ∈ pre, cm c' ≠ some "red") (hc : cm c = some "red") :
    findRedErrorCode cm (pre ++ c :: post) = some c := by
  induction pre with
  | nil => simp [findRedErrorCode, hc]
  | cons a rest ih =>
    have ha : cm a ≠ some "red" := hpre a (List.mem_cons_self a rest)
    simp only [List.cons_append, findRedErrorCode, if_neg ha]
    exact ih fun c' hc' => hpre c' (List.mem_cons_of_mem a hc')

/-- C2: in the day window, nonzero power yields green with reason cleared;
zero power yields red, with reason `"error code: <code>"` for the first
event code (in provider-return order) mapped to red severity, and
`"no production"` when no event code is red-severity. -/
theorem C2_day_transitions (s r : String) (cm : String → Option String)
    (ms pre post : List String) (c : String) (p : ℚ) (hp : 0 ≤ p) :
    (p ≠ 0 → deviceTransition s r p false cm ms = ("green", "")) ∧
    ((∀ c' ∈ ms, cm c' ≠ some "red") →
      deviceTransition s r 0 false cm ms = ("red", "no production")) ∧
    ((∀ c' ∈ pre, cm c' ≠ some "red") → cm c = some "red" →
      deviceTransition s r 0 false cm (pre ++ c :: post) =
        ("red", "error code: " ++ c)) := by
  refine ⟨?_, ?_, ?_⟩
  · intro h
    have hpos : 0 < p := lt_of_le_of_ne hp (Ne.symm h)
    simp [deviceTransition, hpos]
  · intro h
    simp [deviceTransition, findRedErrorCode_eq_none cm ms h]
  · intro hpre hc
    simp [deviceTransition, findRedErrorCode_first cm pre post c hpre hc]

/-- C2 witness: day window at power 150 (green, cleared), at power 0 with no
red-severity event (red, "no production"), and at power 0 with event list
`["4", "567"]` where only `"567"` is red-severity (red, "error code: 567"). -/
theorem C2_day_transitions_witness :
    deviceTransition "green" "x" 150 false colorMapEx ["4"] = ("green", "") ∧
    deviceTransition "green" "x" 0 false colorMapEx ["4"] =
      ("red", "no production") ∧
    deviceTransition "green" "x" 0 false colorMapEx (["4"] ++ "567" :: []) =
      ("red", "error code: 567") := by
  have h := C2_day_transitions "green" "x" colorMapEx ["4"] ["4"] [] "567" 150
    (by norm_num)
  refine ⟨h.1 (by norm_num), h.2.1 ?_, h.2.2 ?_ (by decide)⟩
  · intro c' hc'
    simp only [List.mem_singleton] at hc'
    subst hc'
    decide
  · intro c' hc'
    simp only [List.mem_singleton] at hc'
    subst hc'
    decide

/-- Per-device status record, as stored under `PK=Inverter#<id>, SK=STATUS`
(`device_status_polling.py`).  Timestamps are opaque ISO strings; `none`
models a missing / null value. -/
structure DeviceStatusRecord where
  status : String
  reason : String
  power : ℚ
  lastUpdated : Option String
  lastStatusChangeTime : Option String
deriving DecidableEq

/-- The SNS status-change message built by `send_device_status_change_sns`
(`device_status_polling.py`), restricted to the status fields. -/
structure ChangeEvent where
  newStatus : String
  previousStatus : String
  newReason : String
  previousReason : String
  power : ℚ
deriving DecidableEq

/-- `update_device_status_in_db` (`device_status_polling.py`): writes the
full item; `lastUpdated` is always set to now, `lastStatusChangeTime` is set
to now only when `status_changed`, otherwise the existing record's value is
preserved. -/
def update_device_status_in_db (existing : DeviceStatusRecord) (status : String)
    (power : ℚ) (reason : String) (status_changed : Bool) (now : String) :
    DeviceStatusRecord :=
  { status := status, reason := reason, power := power,
    lastUpdated := some now,
    lastStatusChangeTime :=
      if status_changed then some now else existing.lastStatusChangeTime }

/-- The write-and-publish tail of `process_device_status`
(`device_status_polling.py`): `status_changed = (new_status !=
current_status) or (new_reason != current_reason)`; on change the record is
written with `status_changed=True` and an SNS change event is emitted; on no
change the record is written with `status_changed=False` and no event is
emitted. -/
def processDeviceStep (stored : DeviceStatusRecord) (p : ℚ) (moon : Bool)
    (cm : String → Option String) (ms : List String) (now : String) :
    DeviceStatusRecord × Option ChangeEvent :=
  let out := deviceTransition stored.status stored.reason p moon cm ms
  if out.1 ≠ stored.status ∨ out.2 ≠ stored.reason then
    (update_device_status_in_db stored out.1 p out.2 true now,
      some ⟨out.1, stored.status, out.2, stored.reason, p⟩)
  else
    (update_device_status_in_db stored out.1 p out.2 false now, none)

/-- The state machine is idempotent: applying `deviceTransition` to its own
output (with the same power, window and fault data) returns that output
unchanged. -/
theorem deviceTransition_idem (s r : String) (p : ℚ) (moon : Bool)
    (cm : String → Option String) (ms : List String) :
    deviceTransition (deviceTransition s r p moon cm ms).1
        (deviceTransition s r p moon cm ms).2 p moon cm ms =
      deviceTransition s r p moon cm ms := by
  cases moon with
  | false =>
    by_cases hp : 0 < p
    · simp [deviceTransition, hp]
    · cases h : findRedErrorCode cm ms <;> simp [deviceTransition, hp, h]
  | true =>
    rcases lt_trichotomy p 0 with hneg | hzero | hpos
    · have h0 : ¬(p = 0) := hneg.ne
      have h1 : ¬(0 < p) := not_lt.mpr hneg.le
      simp [deviceTransition, h0, h1]
    · subst hzero
      by_cases hs1 : s = "red"
      · simp [deviceTransition, hs1]
      · by_cases hs2 : s = "Moon"
        · simp [deviceTransition, hs2]
        · by_cases hs3 : s = "green"
          · simp [deviceTransition, hs3]
          · simp [deviceTransition, hs1, hs2, hs3]
    · have h0 : ¬(p = 0) := hpos.ne'
      by_cases hs1 : s = "red"
      · simp [deviceTransition, hs1, hpos, h0]
      · by_cases hs2 : s = "Moon"
        · simp [deviceTransition, hs2, hpos, h0]
        · by_cases hs3 : s = "green"
          · simp [deviceTransition, hs3, hpos, h0]
          · simp [deviceTransition, hs1, hs2, hs3, hpos, h0]

/-- When the computed (status, reason) equals the stored pair, the write
updates only `power` and `lastUpdated` and no event is emitted. -/
theorem processDeviceStep_unchanged (stored : DeviceStatusRecord) (p : ℚ)
    (moon : Bool) (cm : String → Option String) (ms : List String)
    (now : String)
    (h : deviceTransition stored.status stored.reason p moon cm ms =
      (stored.status, stored.reason)) :
    processDeviceStep stored p moon cm ms now =
      ({ stored with power := p, lastUpdated := some now }, none) := by
  obtain ⟨s, r, pw, lu, lsc⟩ := stored
  simp [processDeviceStep, update_device_status_in_db, h]

/-- The record written by `processDeviceStep` carries the computed status. -/
theorem processDeviceStep_fst_status (stored : DeviceStatusRecord) (p : ℚ)
    (moon : Bool) (cm : String → Option String) (ms : List String)
    (now : String) :
    (processDeviceStep stored p moon cm ms now).1.status =
      (deviceTransition stored.status stored.reason p moon cm ms).1 := by
  by_cases h : (deviceTransition stored.status stored.reason p moon cm ms).1 ≠
      stored.status ∨
      (deviceTransition stored.status stored.reason p moon cm ms).2 ≠
        stored.reason
  · simp [processDeviceStep, update_device_status_in_db, if_pos h]
  · simp [processDeviceStep, update_device_status_in_db, if_neg h]

/-- The record written by `processDeviceStep` carries the computed reason. -/
theorem processDeviceStep_fst_reason (stored : DeviceStatusRecord) (p : ℚ)
    (moon : Bool) (cm : String → Option String) (ms : List String)
    (now : String) :
    (processDeviceStep stored p moon cm ms now).1.reason =
      (deviceTransition stored.status stored.reason p moon cm ms).2 := by
  by_cases h : (deviceTransition stored.status stored.reason p moon cm ms).1 ≠
      stored.status ∨
      (deviceTransition stored.status stored.reason p moon cm ms).2 ≠
        stored.reason
  · simp [processDeviceStep, update_device_status_in_db, if_pos h]
  · simp [processDeviceStep, update_device_status_in_db, if_neg h]

/-- C3: write policy and idempotence. (1) If the computed (status, reason)
equals the stored pair, the write updates only `lastUpdated` and `power`
(status, reason and `lastStatusChangeTime` preserved) and no change event is
emitted. (2) If it differs, `lastStatusChangeTime` is set to now and a
change event carrying previous/new status and reason is emitted. (3)
Re-running the engine on the written record with identical inputs never
advances `lastStatusChangeTime` and never emits a second event. -/
theorem C3_write_policy_idempotence (stored : DeviceStatusRecord) (p : ℚ)
    (moon : Bool) (cm : String → Option String) (ms : List String)
    (now now2 : String) :
    (deviceTransition stored.status stored.reason p moon cm ms =
        (stored.status, stored.reason) →
      processDeviceStep stored p moon cm ms now =
        ({ stored with power := p, lastUpdated := some now }, none)) ∧
    (deviceTransition stored.status stored.reason p moon cm ms ≠
        (stored.status, stored.reason) →
      (processDeviceStep stored p moon cm ms now).1.lastStatusChangeTime =
          some now ∧
      (processDeviceStep stored p moon cm ms now).2 =
        some ⟨(deviceTransition stored.status stored.reason p moon cm ms).1,
          stored.status,
          (deviceTransition stored.status stored.reason p moon cm ms).2,
          stored.reason, p⟩) ∧
    ((processDeviceStep (processDeviceStep stored p moon cm ms now).1 p moon
        cm ms now2).1.lastStatusChangeTime =
      (processDeviceStep stored p moon cm ms now).1.lastStatusChangeTime ∧
    (processDeviceStep (processDeviceStep stored p moon cm ms now).1 p moon
        cm ms now2).2 = none) := by
  refine ⟨fun h => processDeviceStep_unchanged stored p moon cm ms now h,
    fun h => ?_, ?_⟩
  · have hcond : (deviceTransition stored.status stored.reason p moon cm ms).1
        ≠ stored.status ∨
        (deviceTransition stored.status stored.reason p moon cm ms).2 ≠
          stored.reason := by
      by_contra hc
      push_neg at hc
      exact h (Prod.ext hc.1 hc.2)
    simp [processDeviceStep, update_device_status_in_db, if_pos hcond]
  · have hfix : deviceTransition
        (processDeviceStep stored p moon cm ms now).1.status
        (processDeviceStep stored p moon cm ms now).1.reason p moon cm ms =
        ((processDeviceStep stored p moon cm ms now).1.status,
          (processDeviceStep stored p moon cm ms now).1.reason) := by
      rw [processDeviceStep_fst_status, processDeviceStep_fst_reason]
      exact deviceTransition_idem stored.status stored.reason p moon cm ms
    rw [processDeviceStep_unchanged _ p moon cm ms now2 hfix]
    exact ⟨rfl, rfl⟩

/-- A healthy record with nonzero power: the engine's fixed point. -/
def stored0 : DeviceStatusRecord := ⟨"green", "", 3, some "t0", some "t0"⟩

/-- A healthy record about to lose power in the night window. -/
def stored1 : DeviceStatusRecord := ⟨"green", "", 3, some "t0", some "t0"⟩

/-- C3 witness: at `stored0` with power 3 (unchanged case) only `power` and
`lastUpdated` move; at `stored1` with power 0 in the night window (changed
case) `lastStatusChangeTime` is set and rerunning emits no second event. -/
theorem C3_witness :
    processDeviceStep stored0 3 true colorMapEx [] "t1" =
      ({ stored0 with power := 3, lastUpdated := some "t1" }, none) ∧
    (processDeviceStep stored1 0 true colorMapEx [] "t1").1.lastStatusChangeTime
      = some "t1" ∧
    (processDeviceStep (processDeviceStep stored1 0 true colorMapEx [] "t1").1
      0 true colorMapEx [] "t2").2 = none := by
  have h0 := C3_write_policy_idempotence stored0 3 true colorMapEx [] "t1" "t2"
  have h1 := C3_write_policy_idempotence stored1 0 true colorMapEx [] "t1" "t2"
  exact ⟨h0.1 (by decide), (h1.2.1 (by decide)).1, h1.2.2.2⟩

/-- A scanned inverter status item as seen by `get_inverter_statuses`
(`update_status.py`): the device id and the stored `status` attribute
(`none` models a missing attribute, for which the code defaults to
`'Moon'`). -/
structure InverterItem where
  device_id : String
  status : Option String
deriving DecidableEq

/-- The status used to bucket an item: `item.get('status', 'Moon')`. -/
def itemStatus (it : InverterItem) : String := it.status.getD "Moon"

/-- `get_inverter_statuses` (`update_status.py`): partitions the scanned
records into green / red / moon device-id lists; a status that is neither
`'green'` nor `'red'` nor `'Moon'` (or is missing) falls into the moon
bucket. -/
def get_inverter_statuses : List InverterItem →
    List String × List String × List String
  | [] => ([], [], [])
  | it :: rest =>
    let (g, r, m) := get_inverter_statuses rest
    if itemStatus it = "green" then (it.device_id :: g, r, m)
    else if itemStatus it = "red" then (g, it.device_id :: r, m)
    else (g, r, it.device_id :: m)

/-- `determine_system_status` (`update_status.py`): red if any inverter is
red; else moon if some inverter is moon and none is green; else green. -/
def determine_system_status (green red moon : List String) : String :=
  if 0 < red.length then "red"
  else if 0 < moon.length ∧ green.length = 0 then "moon"
  else "green"

/-- Per-site status record, as stored under `PK=System#<id>, SK=STATUS`
(`update_status.py`). -/
structure SystemStatusRecord where
  status : String
  greenInverters : List String
  redInverters : List String
  moonInverters : List String
  totalInverters : Nat
  lastUpdated : Option String
deriving DecidableEq

/-- `update_system_status` (`update_status.py`): recomputes the aggregate,
compares the three inverter lists *as sets* and the aggregate against the
stored record, and skips the write when all four agree; returns the written
record otherwise (`none` = no write, stored record untouched). -/
def update_system_status (current : SystemStatusRecord)
    (green red moon : List String) (now : String) :
    Option SystemStatusRecord :=
  let overall := determine_system_status green red moon
  if green.toFinset = current.greenInverters.toFinset ∧
      red.toFinset = current.redInverters.toFinset ∧
      moon.toFinset = current.moonInverters.toFinset ∧
      current.status = overall then
    none
  else
    some { status := overall, greenInverters := green, redInverters := red,
           moonInverters := moon,
           totalInverters := green.length + red.length + moon.length,
           lastUpdated := some now }

/-- The aggregate-status invariant, as a predicate on (status, three
lists): fault iff the fault set is non-empty; else dormant iff the dormant
set is non-empty and the healthy set empty; else healthy. -/
def aggregateInvariant (status : String) (green red moon : List String) :
    Prop :=
  (status = "red" ↔ red ≠ []) ∧
  (red = [] → (status = "moon" ↔ (moon ≠ [] ∧ green = []))) ∧
  (red = [] → ¬(moon ≠ [] ∧ green = []) → status = "green")


/-- `determine_system_status` satisfies the aggregate invariant. -/
theorem determine_system_status_invariant (green red moon : List String) :
    aggregateInvariant (determine_system_status green red moon)
      green red moon := by
  unfold aggregateInvariant determine_system_status
  by_cases hr : 0 < red.length
  · rw [if_pos hr]
    have hrne : red ≠ [] := List.length_pos.mp hr
    exact ⟨⟨fun _ => hrne, fun _ => rfl⟩, fun h => (hrne h).elim,
      fun h _ => (hrne h).elim⟩
  · rw [if_neg hr]
    have hre : red = [] :=
      List.length_eq_zero.mp (Nat.le_zero.mp (not_lt.mp hr))
    by_cases hm : 0 < moon.length ∧ green.length = 0
    · rw [if_pos hm]
      have hmoon : moon ≠ [] := List.length_pos.mp hm.1
      have hg : green = [] := List.length_eq_zero.mp hm.2
      refine ⟨⟨fun h => absurd h (by decide), fun h => (h hre).elim⟩,
        fun _ => ⟨fun _ => ⟨hmoon, hg⟩, fun _ => rfl⟩,
        fun _ hn => (hn ⟨hmoon, hg⟩).elim⟩
    · rw [if_neg hm]
      refine ⟨⟨fun h => absurd h (by decide), fun h => (h hre).elim⟩,
        fun _ => ⟨fun h => absurd h (by decide), fun h => ?_⟩,
        fun _ _ => rfl⟩
      exact (hm ⟨List.length_pos.mpr h.1, List.length_eq_zero.mpr h.2⟩).elim

/-- C4: the aggregate invariant holds both for the pure aggregate
computation and for every `SystemStatusRecord` that `update_system_status`
actually writes: aggregate = red iff the red set is non-empty; else moon iff
the moon set is non-empty and the green set empty; else green. -/
theorem C4_aggregate_invariant (green red moon : List String)
    (current : SystemStatusRecord) (now : String)
    (written : SystemStatusRecord)
    (hw : update_system_status current green red moon now = some written) :
    aggregateInvariant (determine_system_status green red moon)
      green red moon ∧
    aggregateInvariant written.status written.greenInverters
      written.redInverters written.moonInverters := by
  refine ⟨determine_system_status_invariant green red moon, ?_⟩
  simp only [update_system_status] at hw
  split at hw
  · exact absurd hw (by simp)
  · obtain rfl := Option.some.inj hw
    exact determine_system_status_invariant green red moon

/-- A stored site record used by the aggregation witnesses. -/
def siteRecordEx : SystemStatusRecord :=
  ⟨"green", ["a"], [], [], 1, some "t0"⟩

/-- The record the aggregator writes after device `"b"` turns red. -/
def siteWrittenEx : SystemStatusRecord :=
  ⟨"red", ["a"], ["b"], [], 2, some "t1"⟩

/-- C4 witness: writing the site record for one green device `"a"` and one
red device `"b"` yields a record satisfying the invariant. -/
theorem C4_aggregate_invariant_witness :
    update_system_status siteRecordEx ["a"] ["b"] [] "t1" =
      some siteWrittenEx ∧
    siteWrittenEx.status = "red" ∧ siteWrittenEx.redInverters ≠ [] := by
  have h := C4_aggregate_invariant ["a"] ["b"] [] siteRecordEx "t1"
    siteWrittenEx (by decide)
  exact ⟨by decide, h.2.1.mpr (by decide), by decide⟩

/-- Two lists have equal `toFinset` (Python `set` equality) iff they have the
same members. -/
theorem toFinset_eq_iff_mem (l₁ l₂ : List String) :
    l₁.toFinset = l₂.toFinset ↔ ∀ x, x ∈ l₁ ↔ x ∈ l₂ := by
  rw [Finset.ext_iff]
  simp only [List.mem_toFinset]

/-- C5: the aggregator skips the write (stored record, `lastUpdated`
included, untouched) exactly when the recomputed tuple — the three
device-id sets and the aggregate — coincides with the stored one; any
difference in some component produces a write. -/
theorem C5_no_write_iff_unchanged (current : SystemStatusRecord)
    (green red moon : List String) (now : String) :
    update_system_status current green red moon now = none ↔
      ((∀ x, x ∈ green ↔ x ∈ current.greenInverters) ∧
       (∀ x, x ∈ red ↔ x ∈ current.redInverters) ∧
       (∀ x, x ∈ moon ↔ x ∈ current.moonInverters) ∧
       current.status = determine_system_status green red moon) := by
  rw [← toFinset_eq_iff_mem green current.greenInverters,
    ← toFinset_eq_iff_mem red current.redInverters,
    ← toFinset_eq_iff_mem moon current.moonInverters]
  simp only [update_system_status]
  by_cases hc : green.toFinset = current.greenInverters.toFinset ∧
      red.toFinset = current.redInverters.toFinset ∧
      moon.toFinset = current.moonInverters.toFinset ∧
      current.status = determine_system_status green red moon
  · rw [if_pos hc]
    exact iff_of_true rfl hc
  · rw [if_neg hc]
    exact iff_of_false (by simp) hc

/-- C5 witness: with an identical recomputed tuple the aggregator writes
nothing, and with a changed tuple it writes. -/
theorem C5_no_write_witness :
    update_system_status siteRecordEx ["a"] [] [] "t1" = none ∧
    update_system_status siteRecordEx ["a"] ["b"] [] "t1" ≠ none := by
  constructor
  · exact (C5_no_write_iff_unchanged siteRecordEx ["a"] [] [] "t1").mpr
      ⟨fun x => Iff.rfl, fun x => Iff.rfl, fun x => Iff.rfl, by decide⟩
  · intro h
    have := (C5_no_write_iff_unchanged siteRecordEx ["a"] ["b"] [] "t1").mp h
    have hb := (this.2.1 "b").mp (by decide)
    simp [siteRecordEx] at hb

/-- Unfolding lemma for `get_inverter_statuses` on a cons cell. -/
theorem gis_cons (it : InverterItem) (rest : List InverterItem) :
    get_inverter_statuses (it :: rest) =
      if itemStatus it = "green" then
        (it.device_id :: (get_inverter_statuses rest).1,
          (get_inverter_statuses rest).2.1, (get_inverter_statuses rest).2.2)
      else if itemStatus it = "red" then
        ((get_inverter_statuses rest).1,
          it.device_id :: (get_inverter_statuses rest).2.1,
          (get_inverter_statuses rest).2.2)
      else
        ((get_inverter_statuses rest).1, (get_inverter_statuses rest).2.1,
          it.device_id :: (get_inverter_statuses rest).2.2) := by
  rcases hgis : get_inverter_statuses rest with ⟨g, r, m⟩
  simp only [get_inverter_statuses, hgis]

/-- The three buckets together contain one entry per scanned record. -/
theorem gis_length (items : List InverterItem) :
    (get_inverter_statuses items).1.length +
      (get_inverter_statuses items).2.1.length +
      (get_inverter_statuses items).2.2.length = items.length := by
  induction items with
  | nil => rfl
  | cons it rest ih =>
    rw [gis_cons]
    split_ifs <;> simp only [List.length_cons] <;> omega

/-- Every record's device id lands in the bucket its stored status selects. -/
theorem gis_mem (items : List InverterItem) (it : InverterItem)
    (hit : it ∈ items) :
    (itemStatus it = "green" →
      it.device_id ∈ (get_inverter_statuses items).1) ∧
    (itemStatus it = "red" →
      it.device_id ∈ (get_inverter_statuses items).2.1) ∧
    (itemStatus it ≠ "green" → itemStatus it ≠ "red" →
      it.device_id ∈ (get_inverter_statuses items).2.2) := by
  induction items with
  | nil => cases hit
  | cons a rest ih =>
    rcases List.mem_cons.mp hit with rfl | hmem
    · rw [gis_cons]
      refine ⟨fun h => ?_, fun h => ?_, fun h1 h2 => ?_⟩
      · simp [h]
      · simp [h]
      · simp [if_neg h1, if_neg h2]
    · have := ih hmem
      rw [gis_cons]
      refine ⟨fun h => ?_, fun h => ?_, fun h1 h2 => ?_⟩
      · split_ifs <;> simp [this.1 h]
      · split_ifs <;> simp [this.2.1 h]
      · split_ifs <;> simp [this.2.2 h1 h2]

/-- Every id in the red bucket comes from a record stored as `'red'`. -/
theorem gis_red_sound (items : List InverterItem) (x : String)
    (hx : x ∈ (get_inverter_statuses items).2.1) :
    ∃ it ∈ items, it.status = some "red" := by
  induction items with
  | nil => cases hx
  | cons a rest ih =>
    rw [gis_cons] at hx
    split_ifs at hx with h1 h2
    · obtain ⟨it, hmem, hst⟩ := ih hx
      exact ⟨it, List.mem_cons_of_mem a hmem, hst⟩
    · rcases List.mem_cons.mp hx with rfl | hmem
      · refine ⟨a, List.mem_cons_self a rest, ?_⟩
        rcases ha : a.status with _ | s
        · simp [itemStatus, ha] at h2
        · simp only [itemStatus, ha, Option.getD_some] at h2
          rw [h2]
      · obtain ⟨it, hmem', hst⟩ := ih hmem
        exact ⟨it, List.mem_cons_of_mem a hmem', hst⟩
    · obtain ⟨it, hmem, hst⟩ := ih hx
      exact ⟨it, List.mem_cons_of_mem a hmem, hst⟩

/-- If no record is stored green or red, the green and red buckets are
empty. -/
theorem gis_all_moon (items : List InverterItem)
    (h : ∀ it ∈ items, itemStatus it ≠ "green" ∧ itemStatus it ≠ "red") :
    (get_inverter_statuses items).1 = [] ∧
      (get_inverter_statuses items).2.1 = [] := by
  induction items with
  | nil => exact ⟨rfl, rfl⟩
  | cons a rest ih =>
    have ha := h a (List.mem_cons_self a rest)
    have ihr := ih fun it hit => h it (List.mem_cons_of_mem a hit)
    rw [gis_cons, if_neg ha.1, if_neg ha.2]
    exact ihr

/-- C10: the partition of `get_inverter_statuses` is total (bucket sizes sum
to the record count, each record's id placed by its status, with unknown or
missing statuses in the moon bucket); the aggregate can only be red when
some record is stored `'red'`; and a site whose records are all
unknown/missing-status aggregates to moon, never red. -/
theorem C10_partition_total (items : List InverterItem) :
    ((get_inverter_statuses items).1.length +
      (get_inverter_statuses items).2.1.length +
      (get_inverter_statuses items).2.2.length = items.length) ∧
    (∀ it ∈ items,
      (itemStatus it = "green" →
        it.device_id ∈ (get_inverter_statuses items).1) ∧
      (itemStatus it = "red" →
        it.device_id ∈ (get_inverter_statuses items).2.1) ∧
      (itemStatus it ≠ "green" → itemStatus it ≠ "red" →
        it.device_id ∈ (get_inverter_statuses items).2.2)) ∧
    (determine_system_status (get_inverter_statuses items).1
        (get_inverter_statuses items).2.1
        (get_inverter_statuses items).2.2 = "red" →
      ∃ it ∈ items, it.status = some "red") ∧
    ((∀ it ∈ items, itemStatus it ≠ "green" ∧ itemStatus it ≠ "red") →
      items ≠ [] →
      determine_system_status (get_inverter_statuses items).1
        (get_inverter_statuses items).2.1
        (get_inverter_statuses items).2.2 = "moon") := by
  refine ⟨gis_length items, fun it hit => gis_mem items it hit, ?_, ?_⟩
  · intro hred
    have hinv := determine_system_status_invariant
      (get_inverter_statuses items).1 (get_inverter_statuses items).2.1
      (get_inverter_statuses items).2.2
    have hne := hinv.1.mp hred
    rcases hr : (get_inverter_statuses items).2.1 with _ | ⟨x, xs⟩
    · exact absurd hr hne
    · exact gis_red_sound items x (by rw [hr]; exact List.mem_cons_self x xs)
  · intro hall hne
    obtain ⟨hg, hr⟩ := gis_all_moon items hall
    have hmlen : (get_inverter_statuses items).2.2.length = items.length := by
      have := gis_length items
      rw [hg, hr] at this
      simpa using this
    have hmne : (get_inverter_statuses items).2.2 ≠ [] := by
      intro hnil
      rw [hnil] at hmlen
      exact hne (List.length_eq_zero.mp hmlen.symm)
    rw [hg, hr]
    unfold determine_system_status
    rw [if_neg (by simp), if_pos ⟨List.length_pos.mpr hmne, rfl⟩]

/-- C10 witness: one record with an unknown status `"blue"`, one with no
status at all — both land in the moon bucket, and the site aggregates to
moon, not red. -/
theorem C10_partition_total_witness :
    get_inverter_statuses [⟨"d1", some "blue"⟩, ⟨"d2", none⟩] =
      ([], [], ["d1", "d2"]) ∧
    determine_system_status [] [] ["d1", "d2"] = "moon" := by
  have h := C10_partition_total [⟨"d1", some "blue"⟩, ⟨"d2", none⟩]
  refine ⟨by decide, ?_⟩
  have := h.2.2.2 (by decide) (by decide)
  simpa using this

/-- The admin user id hard-coded in `process_status_change_notification`
(`notify_user.py`), for which incident creation is always skipped. -/
def ADMIN_USER_ID : String := "04484418-1051-70ea-d0d3-afb45eadb6e7"

/-- Delay used for the stored incident deadline:
`expires_at = datetime.utcnow() + timedelta(hours=1)` in
`create_incident_record` (`notify_user.py`), in seconds. -/
def INCIDENT_DEADLINE_SECONDS : Int := 3600

/-- Delay used for the EventBridge one-shot timer:
`schedule_time = datetime.utcnow() + timedelta(minutes=2)` in
`create_technician_schedule` (`notify_user.py`), in seconds.  (The 1-hour
line is commented out in the source.) -/
def SCHEDULE_DELAY_SECONDS : Int := 120

/-- An incident record, as written under `PK=Incident#<id>, SK=User#<uid>`
(`notify_user.py`). -/
structure Incident where
  incidentId : String
  userId : String
  systemId : String
  deviceId : String
  status : String
  expiresAt : Int
  newStatus : String
deriving DecidableEq

/-- A one-shot EventBridge schedule, as created by
`create_technician_schedule` (`notify_user.py`): name
`incident-<id[:8]>-user-<uid[:8]>`, firing at the schedule time, with the
incident id and user id in its payload. -/
structure TechnicianSchedule where
  name : String
  fireAt : Int
  incidentId : String
  userId : String
deriving DecidableEq

/-- `create_incident_record` (`notify_user.py`): a pending incident expiring
one hour after creation. -/
def create_incident_record (incidentId userId systemId deviceId
    newStatus : String) (now : Int) : Incident :=
  { incidentId := incidentId, userId := userId, systemId := systemId,
    deviceId := deviceId, status := "pending",
    expiresAt := now + INCIDENT_DEADLINE_SECONDS, newStatus := newStatus }

/-- `create_technician_schedule` (`notify_user.py`): a one-shot timer firing
two minutes after creation. -/
def create_technician_schedule (incidentId userId : String) (now : Int) :
    TechnicianSchedule :=
  { name := "incident-" ++ incidentId.take 8 ++ "-user-" ++ userId.take 8,
    fireAt := now + SCHEDULE_DELAY_SECONDS,
    incidentId := incidentId, userId := userId }

/-- Python's `str.strip()` on the whitespace kinds relevant here, written
with structural recursion so concrete instances evaluate: drop whitespace
from both ends. -/
def pyStrip (s : String) : String :=
  ⟨((s.data.dropWhile Char.isWhitespace).reverse.dropWhile
      Char.isWhitespace).reverse⟩

/-- The SNS message fields `process_status_change_notification` reads. -/
structure StatusChangeMessage where
  deviceId : String
  pvSystemId : String
  newStatus : String
  previousStatus : String
  power : ℚ
deriving DecidableEq

/-- The incident-creation part of `process_status_change_notification`
(`notify_user.py`): missing required fields abort; only `newStatus == "red"`
creates anything; for each user with system access (except the hard-coded
admin user) whose profile has a non-empty `technician_email` after
stripping, one incident record is created and one one-shot technician
schedule is armed.  `users` is the list returned by
`get_users_with_system_access`, `techEmail u` the profile's
`technician_email` (empty string when absent), `idGen u` the generated
incident uuid for user `u`. -/
def process_status_change_notification (msg : StatusChangeMessage)
    (users : List String) (techEmail : String → String)
    (idGen : String → String) (now : Int) :
    List Incident × List TechnicianSchedule :=
  if msg.deviceId = "" ∨ msg.pvSystemId = "" ∨ msg.newStatus = "" ∨
      msg.previousStatus = "" then ([], [])
  else if msg.newStatus ≠ "red" then ([], [])
  else
    let eligible := users.filter fun u =>
      decide (u ≠ ADMIN_USER_ID) && decide (pyStrip (techEmail u) ≠ "")
    (eligible.map fun u =>
        create_incident_record (idGen u) u msg.pvSystemId msg.deviceId
          msg.newStatus now,
      eligible.map fun u => create_technician_schedule (idGen u) u now)

/-- A fault event message used by the incident witnesses. -/
def msgEx : StatusChangeMessage := ⟨"dev1", "sys1", "red", "green", 0⟩

/-- C6 (counterexample): the hard-coded admin user has system access and a
configured escalation contact, yet no incident is created for it — the
claim's "every recipient who has visibility and an escalation contact"
fails on the admin recipient. -/
theorem C6_admin_counterexample :
    ADMIN_USER_ID ∈ [ADMIN_USER_ID] ∧ (pyStrip "t@x" ≠ "") ∧
    (process_status_change_notification msgEx [ADMIN_USER_ID]
      (fun _ => "t@x") (fun _ => "inc1") 0).1 = [] := by
  refine ⟨List.mem_singleton.mpr rfl, by decide, ?_⟩
  decide

/-- C6 (amended): a non-fault event creates no incidents and no timers; a
fault (`"red"`) event with all required fields creates, for every recipient
with system access *other than the hard-coded admin user* whose
`technician_email` is non-empty after stripping, one pending incident with
deadline now + 1h and one armed one-shot schedule keyed by the (truncated)
incident and user ids; non-eligible recipients get none, and every created
incident is pending with that deadline. -/
theorem C6_incident_creation_amended (msg : StatusChangeMessage)
    (users : List String) (techEmail : String → String)
    (idGen : String → String) (now : Int) :
    (msg.newStatus ≠ "red" →
      process_status_change_notification msg users techEmail idGen now =
        ([], [])) ∧
    (msg.deviceId ≠ "" → msg.pvSystemId ≠ "" → msg.newStatus = "red" →
      msg.previousStatus ≠ "" →
      (∀ u ∈ users, u ≠ ADMIN_USER_ID → pyStrip (techEmail u) ≠ "" →
        create_incident_record (idGen u) u msg.pvSystemId msg.deviceId
            "red" now ∈
          (process_status_change_notification msg users techEmail idGen
            now).1 ∧
        create_technician_schedule (idGen u) u now ∈
          (process_status_change_notification msg users techEmail idGen
            now).2) ∧
      (process_status_change_notification msg users techEmail idGen
          now).1.length =
        (users.filter fun u => decide (u ≠ ADMIN_USER_ID) &&
          decide (pyStrip (techEmail u) ≠ "")).length ∧
      (∀ inc ∈ (process_status_change_notification msg users techEmail idGen
          now).1,
        inc.status = "pending" ∧
        inc.expiresAt = now + INCIDENT_DEADLINE_SECONDS)) := by
  constructor
  · intro h
    unfold process_status_change_notification
    by_cases h1 : msg.deviceId = "" ∨ msg.pvSystemId = "" ∨
        msg.newStatus = "" ∨ msg.previousStatus = ""
    · rw [if_pos h1]
    · rw [if_neg h1, if_pos h]
  · intro hd hs hred hp
    have hvalid : ¬(msg.deviceId = "" ∨ msg.pvSystemId = "" ∨
        msg.newStatus = "" ∨ msg.previousStatus = "") := by
      push_neg
      exact ⟨hd, hs, by rw [hred]; decide, hp⟩
    have hr : ¬(msg.newStatus ≠ "red") := not_not.mpr hred
    refine ⟨fun u hu hadmin hemail => ?_, ?_, fun inc hinc => ?_⟩
    · have hu' : u ∈ users.filter fun u => decide (u ≠ ADMIN_USER_ID) &&
          decide (pyStrip (techEmail u) ≠ "") := by
        rw [List.mem_filter]
        exact ⟨hu, by simp [hadmin, hemail]⟩
      constructor
      · unfold process_status_change_notification
        rw [if_neg hvalid, if_neg hr]
        rw [← hred]
        exact List.mem_map.mpr ⟨u, hu', rfl⟩
      · unfold process_status_change_notification
        rw [if_neg hvalid, if_neg hr]
        exact List.mem_map.mpr ⟨u, hu', rfl⟩
    · unfold process_status_change_notification
      rw [if_neg hvalid, if_neg hr]
      exact List.length_map _ _
    · unfold process_status_change_notification at hinc
      rw [if_neg hvalid, if_neg hr] at hinc
      obtain ⟨u, _, rfl⟩ := List.mem_map.mp hinc
      exact ⟨rfl, rfl⟩

/-- C6 witness: a red event for users `["u1", admin]` where only `"u1"` is
eligible creates exactly the one pending incident and its schedule. -/
theorem C6_incident_creation_witness :
    create_incident_record "inc1" "u1" "sys1" "dev1" "red" 1000 ∈
      (process_status_change_notification msgEx ["u1", ADMIN_USER_ID]
        (fun _ => "t@x") (fun _ => "inc1") 1000).1 ∧
    (process_status_change_notification msgEx ["u1", ADMIN_USER_ID]
        (fun _ => "t@x") (fun _ => "inc1") 1000).1.length = 1 ∧
    process_status_change_notification
      ⟨"dev1", "sys1", "green", "red", 5⟩ ["u1"] (fun _ => "t@x")
      (fun _ => "inc1") 1000 = ([], []) := by
  have h := C6_incident_creation_amended msgEx ["u1", ADMIN_USER_ID]
    (fun _ => "t@x") (fun _ => "inc1") 1000
  have h2 := C6_incident_creation_amended
    ⟨"dev1", "sys1", "green", "red", 5⟩ ["u1"] (fun _ => "t@x")
    (fun _ => "inc1") 1000
  have hmain := h.2 (by decide) (by decide) (by decide) (by decide)
  refine ⟨(hmain.1 "u1" (by decide) (by decide) (by decide)).1, ?_,
    h2.1 (by decide)⟩
  rw [hmain.2.1]
  decide

/-- The incident fields `process_incident_notification`
(`notify_technician.py`) reads. -/
structure IncidentRecord where
  status : String
  deviceId : String
  systemId : String
  newStatus : String
deriving DecidableEq

/-- The observable outcome of one timer firing: how many escalation emails
were sent, the incident status written back (`none` = no status write), the
`dismissedReason` written (by `mark_incident_as_dismissed`), and whether the
EventBridge schedule was deleted. -/
structure IncidentOutcome where
  emailsSent : Nat
  writtenStatus : Option String
  dismissedReason : Option String
  scheduleCleaned : Bool
deriving DecidableEq

/-- The email-sending tail of the `pending` branch of
`process_incident_notification` (`notify_technician.py`): no profile →
ignore with cleanup only; empty `technician_email` after stripping → mark
processed, cleanup, no email; otherwise send one email, mark processed
(`mark_incident_as_processed` writes status `'processed'`), cleanup. -/
def technicianEmailStep (profile : Option String) : IncidentOutcome :=
  match profile with
  | none => ⟨0, none, none, true⟩
  | some e =>
    if pyStrip e = "" then ⟨0, some "processed", none, true⟩
    else ⟨1, some "processed", none, true⟩

/-- `process_incident_notification` (`notify_technician.py`).  `incident` is
the stored incident record (`none` = not found), `deviceStatus` the current
`status` of the incident's device (`none` = status record unreadable),
`profile` the user's `technician_email` (`none` = no profile).  Missing
incident → cleanup only.  Already-`dismissed` → mark processed, cleanup, no
email.  `pending` → if the device is now `'green'`, mark dismissed with
`dismissedReason` `"Incident was dismissed - status reverted"`, cleanup, no
email; otherwise (still non-green, or status unreadable) proceed to the
email step.  Any other stored status → mark processed, cleanup, no email. -/
def process_incident_notification (incident : Option IncidentRecord)
    (deviceStatus : Option String) (profile : Option String) :
    IncidentOutcome :=
  match incident with
  | none => ⟨0, none, none, true⟩
  | some inc =>
    if inc.status = "dismissed" then ⟨0, some "processed", none, true⟩
    else if inc.status = "pending" then
      match deviceStatus with
      | none => technicianEmailStep profile
      | some ds =>
        if ds = "green" then
          ⟨0, some "dismissed",
            some "Incident was dismissed - status reverted", true⟩
        else technicianEmailStep profile
    else ⟨0, some "processed", none, true⟩

/-- A pending incident on a red device, used by the C7 theorems. -/
def pendingIncidentEx : IncidentRecord := ⟨"pending", "dev1", "sys1", "red"⟩

/-- C7 (counterexample): a pending incident whose device is still red, with
a configured technician email, sends exactly one notification but is marked
`'processed'`, not `'escalated'` — the claim's terminal status does not
match the stored one. -/
theorem C7_processed_counterexample :
    (process_incident_notification (some pendingIncidentEx) (some "red")
      (some "t@x")).emailsSent = 1 ∧
    (process_incident_notification (some pendingIncidentEx) (some "red")
      (some "t@x")).writtenStatus ≠ some "escalated" := by
  constructor <;> decide

/-- C7 (amended): at timer firing on a `pending` incident — device recovered
to `'green'`: marked `'dismissed'` with reason
`"Incident was dismissed - status reverted"`, schedule removed, no email;
device still non-green with a non-empty technician email: exactly one
escalation email is sent and the incident is marked `'processed'` (the
code's terminal marker for the spec's `escalated`), schedule removed.
Missing incident: cleanup only, nothing written, no email.
Already-`'dismissed'` incident: no email, marked `'processed'`, schedule
removed. -/
theorem C7_reconciliation_amended (inc : IncidentRecord)
    (deviceStatus : Option String) (profile : Option String)
    (ds e : String) :
    (inc.status = "pending" →
      process_incident_notification (some inc) (some "green") profile =
        ⟨0, some "dismissed",
          some "Incident was dismissed - status reverted", true⟩) ∧
    (inc.status = "pending" → ds ≠ "green" → pyStrip e ≠ "" →
      process_incident_notification (some inc) (some ds) (some e) =
        ⟨1, some "processed", none, true⟩) ∧
    (process_incident_notification none deviceStatus profile =
      ⟨0, none, none, true⟩) ∧
    (inc.status = "dismissed" →
      process_incident_notification (some inc) deviceStatus profile =
        ⟨0, some "processed", none, true⟩) := by
  refine ⟨fun hp => ?_, fun hp hds he => ?_, rfl, fun hd => ?_⟩
  · have hnd : ¬inc.status = "dismissed" := by rw [hp]; decide
    simp [process_incident_notification, hnd, hp]
  · have hnd : ¬inc.status = "dismissed" := by rw [hp]; decide
    simp [process_incident_notification, technicianEmailStep, hnd, hp, hds,
      he]
  · simp [process_incident_notification, hd]

/-- C7 witness: the amended reconciliation at a concrete pending incident —
recovered device dismisses without email; red device emails once and marks
processed; missing incident is a no-op; dismissed incident cleans up. -/
theorem C7_reconciliation_witness :
    process_incident_notification (some pendingIncidentEx) (some "green")
        (some "t@x") =
      ⟨0, some "dismissed",
        some "Incident was dismissed - status reverted", true⟩ ∧
    process_incident_notification (some pendingIncidentEx) (some "red")
        (some "t@x") =
      ⟨1, some "processed", none, true⟩ ∧
    process_incident_notification none (some "red") (some "t@x") =
      ⟨0, none, none, true⟩ ∧
    process_incident_notification (some ⟨"dismissed", "dev1", "sys1", "red"⟩)
        (some "red") (some "t@x") =
      ⟨0, some "processed", none, true⟩ := by
  have h1 := C7_reconciliation_amended pendingIncidentEx (some "red")
    (some "t@x") "red" "t@x"
  have h2 := C7_reconciliation_amended ⟨"dismissed", "dev1", "sys1", "red"⟩
    (some "red") (some "t@x") "red" "t@x"
  exact ⟨h1.1 rfl, h1.2.1 rfl (by decide) (by decide), h1.2.2.1,
    h2.2.2.2 rfl⟩

/-- C8 (code bug): the stored incident deadline is creation + 1 hour
(`expiresAt`), but the one-shot EventBridge timer for the same incident is
armed to fire at creation + 2 minutes — the timer does not fire at the
stored deadline, and the two code paths use different delays (3600 s vs
120 s). -/
theorem C8_deadline_mismatch :
    (create_incident_record "inc1" "u1" "sys1" "dev1" "red" 0).expiresAt =
      3600 ∧
    (create_technician_schedule "inc1" "u1" 0).fireAt = 120 ∧
    (create_incident_record "inc1" "u1" "sys1" "dev1" "red" 0).expiresAt ≠
      (create_technician_schedule "inc1" "u1" 0).fireAt := by
  refine ⟨rfl, rfl, by decide⟩

/-- `RED_STATUS_THRESHOLD_HOURS = 15` (`red_code_reminder.py`). -/
def RED_STATUS_THRESHOLD_HOURS : Int := 15

/-- The fields of a red-status inverter record used by
`red_code_reminder.py` (`RedInverterInfo`).  `lastStatusChangeTime` is the
parsed timestamp in epoch seconds; `none` models an empty or unparseable
`lastStatusChangeTime` string. -/
structure RedInverterInfo where
  device_id : String
  pv_system_id : String
  status : String
  reason : String
  lastStatusChangeTime : Option Int
  power : ℚ
deriving DecidableEq

/-- `is_red_status_old_enough` (`red_code_reminder.py`): true when the red
status is at least `RED_STATUS_THRESHOLD_HOURS` hours old
(`hours_since_change >= 15`, i.e. at least 54000 seconds); a missing or
unparseable timestamp is treated as old enough. -/
def is_red_status_old_enough (now : Int) (lastChange : Option Int) : Bool :=
  match lastChange with
  | none => true
  | some t => decide (RED_STATUS_THRESHOLD_HOURS * 3600 ≤ now - t)

/-- `get_all_red_inverters` (`red_code_reminder.py`): the scan keeps records
whose status is `'red'` and whose device and system ids are non-empty. -/
def get_all_red_inverters (db : List RedInverterInfo) :
    List RedInverterInfo :=
  db.filter fun i => decide (i.device_id ≠ "") &&
    decide (i.pv_system_id ≠ "") && decide (i.status = "red")

/-- The SNS message built by `send_red_code_reminder_sns`
(`red_code_reminder.py`): previous status/reason repeat the stored ones and
the message is tagged `"Daily Reminder"` — it is not an incident and arms no
timer. -/
structure ReminderMessage where
  deviceId : String
  pvSystemId : String
  newStatus : String
  previousStatus : String
  newReason : String
  msgType : String
deriving DecidableEq

/-- `send_red_code_reminder_sns` (`red_code_reminder.py`), as the message it
publishes. -/
def send_red_code_reminder_sns (i : RedInverterInfo) : ReminderMessage :=
  ⟨i.device_id, i.pv_system_id, i.status, "red", i.reason, "Daily Reminder"⟩

/-- `process_red_code_reminders` (`red_code_reminder.py`): one reminder per
red inverter whose status is old enough; nothing else is produced (in
particular no incident records and no schedules). -/
def process_red_code_reminders (db : List RedInverterInfo) (now : Int) :
    List ReminderMessage :=
  (get_all_red_inverters db).filterMap fun i =>
    if is_red_status_old_enough now i.lastStatusChangeTime then
      some (send_red_code_reminder_sns i)
    else none

/-- C9: the sweep is compositional and per-device: a record contributes
exactly one reminder iff it is stored `'red'` (with well-formed ids) and its
last status change is at least the 15-hour threshold old; the threshold test
on a parsed timestamp is exactly `now - t ≥ 15 h`; and every produced
message is tagged `"Daily Reminder"` — the sweep reads the status store and
emits reminders only, so rerunning it on unchanged state reproduces the same
sends. -/
theorem C9_reminder_sweeper (db : List RedInverterInfo)
    (i : RedInverterInfo) (now t : Int) :
    (process_red_code_reminders (i :: db) now =
      (if i.device_id ≠ "" ∧ i.pv_system_id ≠ "" ∧ i.status = "red" ∧
          is_red_status_old_enough now i.lastStatusChangeTime = true then
        [send_red_code_reminder_sns i]
      else []) ++ process_red_code_reminders db now) ∧
    (is_red_status_old_enough now (some t) = true ↔
      RED_STATUS_THRESHOLD_HOURS * 3600 ≤ now - t) ∧
    (∀ m ∈ process_red_code_reminders db now,
      m.msgType = "Daily Reminder") := by
  refine ⟨?_, ?_, ?_⟩
  · simp only [process_red_code_reminders, get_all_red_inverters,
      List.filter_cons]
    by_cases h1 : i.device_id ≠ "" <;> by_cases h2 : i.pv_system_id ≠ "" <;>
      by_cases h3 : i.status = "red" <;>
      by_cases h4 : is_red_status_old_enough now i.lastStatusChangeTime =
        true <;>
      simp [h1, h2, h3, h4, List.filterMap_cons]
  · simp [is_red_status_old_enough]
  · intro m hm
    simp only [process_red_code_reminders, List.mem_filterMap] at hm
    obtain ⟨j, _, hjeq⟩ := hm
    split at hjeq
    · obtain rfl := Option.some.inj hjeq
      rfl
    · cases hjeq

/-- A red record 60000 s old and a red record 1000 s old. -/
def redOldEx : RedInverterInfo :=
  ⟨"dev1", "sys1", "red", "no production", some 0, 0⟩

/-- A red record whose fault is only 1000 seconds old. -/
def redNewEx : RedInverterInfo :=
  ⟨"dev2", "sys1", "red", "no production", some 59000, 0⟩

/-- C9 witness: at `now = 60000` the sweep over both records sends exactly
one "Daily Reminder" — for the 15-hour-old fault, not the fresh one. -/
theorem C9_reminder_sweeper_witness :
    process_red_code_reminders [redOldEx, redNewEx] 60000 =
      [send_red_code_reminder_sns redOldEx] ∧
    RED_STATUS_THRESHOLD_HOURS * 3600 ≤ (60000 : Int) - 0 ∧
    (send_red_code_reminder_sns redOldEx).msgType = "Daily Reminder" := by
  have h := C9_reminder_sweeper [redOldEx, redNewEx] redOldEx 60000 0
  exact ⟨by decide, h.2.1.mp (by decide),
    h.2.2 (send_red_code_reminder_sns redOldEx) (by decide)⟩
